import Mathlib

/-!
Verification of the autostop idle-decision script
(`src/autostop/autostop.py`) for SageMaker notebook instances.

The script is embedded shallowly: each Python function of the decision
path becomes a Lean function over an explicit environment record `Env`
that carries the outcomes of every external interaction (schedule clock,
CPU sampler, local session API, metadata file, EC2 tag query, hostname,
AWS credential state, stop API).  `sys.exit(c)` is modelled as an
`exitCode := some c` field of the result; falling off the end of `main`
is `exitCode := none`.  Timestamps and CPU percentages are rationals.
-/

namespace Autostop

/-- A kernel sub-object of a `/api/sessions` entry; `last_activity` is the
parsed timestamp (in seconds), absent when the field is missing. -/
structure SessionKernel where
  last_activity : Option ℚ
  deriving DecidableEq

/-- One entry of the `/api/sessions` response; the `kernel` sub-object is
optional. -/
structure Session where
  kernel : Option SessionKernel
  deriving DecidableEq

/-- One entry of the `/api/kernels` response; the integer `connections`
field is optional (the code reads it with `.get("connections", 0)`). -/
structure Kernel where
  connections : Option ℤ
  deriving DecidableEq

/-- Frozen AWS credentials for a profile: access and secret key material.
Empty strings model falsy (missing) key material. -/
structure Credentials where
  access_key : String
  secret_key : String
  deriving DecidableEq

/-- Outcomes of every external interaction of one run of the script.
`none` on a query field models the request raising an exception. -/
structure Env where
  /-- ISO weekday (1 = Monday .. 7 = Sunday) of `now` in the configured
  timezone, as computed by `datetime.now(tz).isoweekday()`. -/
  weekday : ℕ
  /-- Hour of `now` in the configured timezone. -/
  hour : ℕ
  /-- Minute of `now` in the configured timezone. -/
  minute : ℕ
  /-- The value `psutil.cpu_percent` returns at the n-th call. -/
  cpuSampleAt : ℕ → ℚ
  /-- Result of `GET /api/sessions`: `none` = the request or the JSON/date
  parsing raised; `some data` = the parsed session list. -/
  sessions : Option (List Session)
  /-- Result of `GET /api/kernels`: `none` = the request raised. -/
  kernels : Option (List Kernel)
  /-- `datetime.utcnow()` as a timestamp in seconds. -/
  nowUtc : ℚ
  /-- Whether `/opt/ml/metadata/resource-metadata.json` exists. -/
  metadataFileExists : Bool
  /-- Whether opening/parsing the metadata file raises an exception. -/
  metadataReadRaises : Bool
  /-- The `ResourceName` field of the metadata file, when present. -/
  metadataResourceName : Option String
  /-- EC2 tag metadata query: `some text` = HTTP 200 with that body;
  `none` = exception or non-200 status. -/
  ec2TagResponse : Option String
  /-- `socket.gethostname()`: `none` = it raises. -/
  hostname : Option String
  /-- The random petname `generate_instance_name()` would produce. -/
  generatedName : String
  /-- Whether `~/.aws/credentials` exists. -/
  credentialsFileExists : Bool
  /-- Whether the profile is found (else `ProfileNotFound` is raised). -/
  profileFound : Bool
  /-- `session.get_credentials()`: `none` models a falsy result. -/
  profileCredentials : Option Credentials
  /-- Whether `sts.get_caller_identity()` succeeds. -/
  stsCallOk : Bool
  /-- Whether `client.stop_notebook_instance(...)` succeeds. -/
  stopCallOk : Bool

/-- The configuration surface of `parse_arguments()` that the decision
path reads.  `endHour`/`endMin` are the source's `end`/`end_min`
(`end` is a Lean keyword); `active_days` keeps ISO weekday numbers. -/
structure Args where
  name : Option String
  profile : String
  region : String
  /-- `--time`: idle threshold in seconds (source default 5400). -/
  time : ℤ
  ignore_connections : Bool
  start : ℕ
  startMin : ℕ
  endHour : ℕ
  endMin : ℕ
  active_days : List ℕ
  cpu_threshold : Option ℚ
  cpu_check_duration : ℕ

/-- Embeds `is_within_active_hours` (autostop.py:256-275).  The timezone
conversion is resolved by passing the local weekday / hour / minute. -/
def is_within_active_hours (args : Args) (weekday hour minute : ℕ) : Bool :=
  let current_day := weekday
  let current_time_minutes := hour * 60 + minute
  let start_time_minutes := args.start * 60 + args.startMin
  let end_time_minutes := args.endHour * 60 + args.endMin
  if current_day ∉ args.active_days then
    false
  else if start_time_minutes ≤ current_time_minutes ∧
      current_time_minutes < end_time_minutes then
    true
  else
    false

/-- The fixed sub-interval of `is_cpu_idle` (`interval = 5  # seconds`). -/
def interval : ℕ := 5

/-- Number of CPU samples taken: `total_samples = max(1, check_duration // interval)`
(autostop.py:367) — integer floor division. -/
def total_samples (check_duration : ℕ) : ℕ :=
  max 1 (check_duration / interval)

/-- The list of CPU readings `is_cpu_idle` collects from the sampler. -/
def cpu_usage_samples (sampleAt : ℕ → ℚ) (check_duration : ℕ) : List ℚ :=
  (List.range (total_samples check_duration)).map sampleAt

/-- `average_cpu = sum(cpu_usage_samples) / len(cpu_usage_samples)`. -/
def average_cpu (samples : List ℚ) : ℚ :=
  samples.sum / samples.length

/-- Embeds `is_cpu_idle` (autostop.py:363-375): collects the samples and
returns whether their mean is strictly below the threshold. -/
def is_cpu_idle (threshold : ℚ) (check_duration : ℕ) (sampleAt : ℕ → ℚ) : Bool :=
  let samples := cpu_usage_samples sampleAt check_duration
  decide (average_cpu samples < threshold)

/-- The sampling policy in the words of the specification (§4.1): take
`ceil(duration / subInterval)` measurements, minimum 1; for comparison
with the source's `is_cpu_idle`. -/
def is_cpu_idle_ceilSpec (threshold : ℚ) (check_duration : ℕ)
    (sampleAt : ℕ → ℚ) : Bool :=
  let n := max 1 ((check_duration + interval - 1) / interval)
  let samples := (List.range n).map sampleAt
  decide (average_cpu samples < threshold)

/-- Result of `get_notebook_name` (autostop.py:278-309): a returned
string, the implicit Python `None` return, or `sys.exit(1)`. -/
inductive NameResult where
  | found : String → NameResult
  | noneValue : NameResult
  | fatal : NameResult
  deriving DecidableEq

/-- Embeds `get_notebook_name` (autostop.py:278-309).  The EC2-tag and
hostname fallbacks live inside the `except` handler of the metadata
read, so they run only when reading the existing file raises; a merely
absent file (or a file without `ResourceName`) falls off the end of the
function and returns Python `None`. -/
def get_notebook_name (env : Env) : NameResult :=
  if env.metadataFileExists then
    if env.metadataReadRaises then
      match env.ec2TagResponse with
      | some text => .found text
      | none =>
        match env.hostname with
        | some h => .found h
        | none => .fatal
    else
      match env.metadataResourceName with
      | some n => .found n
      | none => .noneValue
  else
    .noneValue

/-- Loop body of `get_last_activity_time`: keep the later of the running
maximum and this session's kernel timestamp, when it has one. -/
def latest_activity_step (last_activity : Option ℚ) (notebook : Session) :
    Option ℚ :=
  match notebook.kernel with
  | none => last_activity
  | some k =>
    match k.last_activity with
    | none => last_activity
    | some activity =>
      match last_activity with
      | none => some activity
      | some prev => if activity > prev then some activity else some prev

/-- Embeds `get_last_activity_time` (autostop.py:312-343).
`none` = the query raised, so the script does `sys.exit(1)`;
`some la` = the maximum `last_activity` across sessions (or `none` when
no session carries a kernel timestamp). -/
def get_last_activity_time (env : Env) : Option (Option ℚ) :=
  match env.sessions with
  | none => none
  | some data => some (data.foldl latest_activity_step none)

/-- Embeds `are_connections_active` (autostop.py:346-360): `none` = the
query raised (`sys.exit(1)`); otherwise whether some kernel reports
`connections > 0`, defaulting a missing field to 0. -/
def are_connections_active (env : Env) : Option Bool :=
  match env.kernels with
  | none => none
  | some data => some (data.any (fun kernel => kernel.connections.getD 0 > 0))

/-- Embeds `validate_aws_profile` (autostop.py:120-169): credentials file
present, profile found, non-empty frozen access/secret keys, and a
successful `get_caller_identity` call. -/
def validate_aws_profile (env : Env) : Bool :=
  if env.credentialsFileExists = false then
    false
  else if env.profileFound = false then
    false
  else
    match env.profileCredentials with
    | none => false
    | some credentials =>
      if credentials.access_key = "" ∨ credentials.secret_key = "" then
        false
      else
        env.stsCallOk

/-- Outcome of `stop_notebook_instance`: whether the mutating stop API
call was issued, and the exit code when the function exits the process. -/
structure StopResult where
  stopApiCalled : Bool
  exitCode : Option ℕ
  deriving DecidableEq

/-- Embeds `stop_notebook_instance` (autostop.py:378-395): validate the
profile (exit 1 on failure, before any stop call), then issue the stop
call, exiting 1 when it raises.  The name argument only affects logging. -/
def stop_notebook_instance (env : Env) (_notebook_instance_name : Option String) :
    StopResult :=
  if validate_aws_profile env = false then
    { stopApiCalled := false, exitCode := some 1 }
  else if env.stopCallOk then
    { stopApiCalled := true, exitCode := none }
  else
    { stopApiCalled := true, exitCode := some 1 }

/-- `idle_time` as computed by main (autostop.py:465-471): forced to
`args.time + 1` when no activity record exists, else the age of the
latest activity. -/
def idle_time_of (time : ℤ) (last_activity : Option ℚ) (nowUtc : ℚ) : ℚ :=
  match last_activity with
  | none => (time : ℚ) + 1
  | some t => nowUtc - t

/-- Observable outcome of one run of `main`: the exit status (`none` =
fell off the end of `main`, i.e. process exit 0), which probes ran, and
whether/with which name the stop orchestrator and stop API were invoked.
`stopCalledWith = some n` records `stop_notebook_instance` being invoked
with Python name `n` (`n = none` is Python `None`). -/
structure MainResult where
  exitCode : Option ℕ
  cpuSampled : Bool
  sessionsQueried : Bool
  kernelsQueried : Bool
  stopCalledWith : Option (Option String)
  stopApiCalled : Bool
  deriving DecidableEq

/-- The tail of `main` that resolves the name and stops the instance
(autostop.py:479-480). -/
def mainDoStop (env : Env) (cpuSampled kernelsQueried : Bool) : MainResult :=
  match get_notebook_name env with
  | .fatal =>
    { exitCode := some 1, cpuSampled := cpuSampled, sessionsQueried := true,
      kernelsQueried := kernelsQueried, stopCalledWith := none,
      stopApiCalled := false }
  | .found n =>
    let r := stop_notebook_instance env (some n)
    { exitCode := r.exitCode, cpuSampled := cpuSampled, sessionsQueried := true,
      kernelsQueried := kernelsQueried, stopCalledWith := some (some n),
      stopApiCalled := r.stopApiCalled }
  | .noneValue =>
    let r := stop_notebook_instance env none
    { exitCode := r.exitCode, cpuSampled := cpuSampled, sessionsQueried := true,
      kernelsQueried := kernelsQueried, stopCalledWith := some none,
      stopApiCalled := r.stopApiCalled }

/-- The activity / connection / stop tail of `main` (autostop.py:465-484),
entered after the schedule and CPU gates. -/
def mainAfterCpu (env : Env) (args : Args) (cpuSampled : Bool) : MainResult :=
  match get_last_activity_time env with
  | none =>
    { exitCode := some 1, cpuSampled := cpuSampled, sessionsQueried := true,
      kernelsQueried := false, stopCalledWith := none, stopApiCalled := false }
  | some last_activity =>
    let idle_time := idle_time_of args.time last_activity env.nowUtc
    if idle_time > (args.time : ℚ) then
      if args.ignore_connections then
        mainDoStop env cpuSampled false
      else
        match are_connections_active env with
        | none =>
          { exitCode := some 1, cpuSampled := cpuSampled,
            sessionsQueried := true, kernelsQueried := true,
            stopCalledWith := none, stopApiCalled := false }
        | some true =>
          { exitCode := none, cpuSampled := cpuSampled,
            sessionsQueried := true, kernelsQueried := true,
            stopCalledWith := none, stopApiCalled := false }
        | some false => mainDoStop env cpuSampled true
    else
      { exitCode := none, cpuSampled := cpuSampled, sessionsQueried := true,
        kernelsQueried := false, stopCalledWith := none, stopApiCalled := false }

/-- Embeds `main` (autostop.py:421-484).  `setup_logging`,
`find_sagemaker_roles` and the startup logging have no modelled effect
(`find_sagemaker_roles` catches every exception and only logs); the
generated instance name is bound but never read by the stop path. -/
def main (env : Env) (args : Args) : MainResult :=
  if validate_aws_profile env = false then
    { exitCode := some 1, cpuSampled := false, sessionsQueried := false,
      kernelsQueried := false, stopCalledWith := none, stopApiCalled := false }
  else
    let _name := args.name.getD env.generatedName
    if is_within_active_hours args env.weekday env.hour env.minute then
      { exitCode := some 0, cpuSampled := false, sessionsQueried := false,
        kernelsQueried := false, stopCalledWith := none, stopApiCalled := false }
    else
      match args.cpu_threshold with
      | some threshold =>
        if is_cpu_idle threshold args.cpu_check_duration env.cpuSampleAt then
          mainAfterCpu env args true
        else
          { exitCode := some 0, cpuSampled := true, sessionsQueried := false,
            kernelsQueried := false, stopCalledWith := none,
            stopApiCalled := false }
      | none => mainAfterCpu env args false

/-! Concrete runs used by witnesses and counterexamples. -/

/-- A run environment where every external interaction succeeds, taken on
a Saturday at 10:00, with an empty session list, an empty kernel list and
no metadata file. -/
def okEnv : Env where
  weekday := 6
  hour := 10
  minute := 0
  cpuSampleAt := fun _ => 0
  sessions := some []
  kernels := some []
  nowUtc := 10000
  metadataFileExists := false
  metadataReadRaises := false
  metadataResourceName := none
  ec2TagResponse := none
  hostname := some "host-1"
  generatedName := "brave-otter-rock"
  credentialsFileExists := true
  profileFound := true
  profileCredentials := some { access_key := "A", secret_key := "S" }
  stsCallOk := true
  stopCallOk := true

/-- The source's default configuration: 09:00-17:00, Monday-Friday,
idle threshold 5400 s, no CPU threshold. -/
def weekdayArgs : Args where
  name := none
  profile := "saml"
  region := "eu-west-1"
  time := 5400
  ignore_connections := false
  start := 9
  startMin := 0
  endHour := 17
  endMin := 0
  active_days := [1, 2, 3, 4, 5]
  cpu_threshold := none
  cpu_check_duration := 60

/-- A configuration whose window ends before it starts (start 17:00,
end 09:00): the non-wrapping check can never match. -/
def emptyWindowArgs : Args :=
  { weekdayArgs with start := 17, endHour := 9 }

/-- The default configuration with connection checking disabled. -/
def stopArgs : Args :=
  { weekdayArgs with ignore_connections := true }

/-- The default configuration with a 50% CPU threshold. -/
def cpuArgs : Args :=
  { weekdayArgs with cpu_threshold := some 50 }

/-- The stop configuration with an explicit instance name. -/
def namedArgs : Args :=
  { stopArgs with name := some "my-notebook" }

/-- A Saturday run whose CPU sampler constantly reads 100%. -/
def busyCpuEnv : Env :=
  { okEnv with cpuSampleAt := fun _ => 100 }

/-- A Saturday run with one session whose kernel was last active at
timestamp 4000, i.e. 6000 s before `nowUtc`. -/
def staleSessionEnv : Env :=
  { okEnv with
    sessions := some [{ kernel := some { last_activity := some 4000 } }] }

/-- A Saturday run with one session whose kernel was last active at
timestamp 9000, i.e. only 1000 s before `nowUtc`. -/
def freshSessionEnv : Env :=
  { okEnv with
    sessions := some [{ kernel := some { last_activity := some 9000 } }] }

/-- A stale-session run whose kernel listing reports 2 live connections. -/
def connectedEnv : Env :=
  { staleSessionEnv with kernels := some [{ connections := some 2 }] }

/-! Helper lemmas shared by the claim theorems. -/

/-- Characterization of `is_within_active_hours`. -/
theorem iwah_iff (args : Args) (weekday hour minute : ℕ) :
    is_within_active_hours args weekday hour minute = true ↔
      weekday ∈ args.active_days ∧
        args.start * 60 + args.startMin ≤ hour * 60 + minute ∧
        hour * 60 + minute < args.endHour * 60 + args.endMin := by
  unfold is_within_active_hours
  by_cases hmem : weekday ∈ args.active_days <;> simp [hmem]

/-- Under passing validation, inactive schedule and no CPU threshold,
`main` runs its activity/connection/stop tail without CPU sampling. -/
theorem main_eq_afterCpu (env : Env) (args : Args)
    (hv : validate_aws_profile env = true)
    (hs : is_within_active_hours args env.weekday env.hour env.minute = false)
    (hc : args.cpu_threshold = none) :
    main env args = mainAfterCpu env args false := by
  simp [main, hv, hs, hc]

/-- The name-resolution/stop tail always reports the sessions query. -/
theorem mainDoStop_sessionsQueried (env : Env) (c k : Bool) :
    (mainDoStop env c k).sessionsQueried = true := by
  unfold mainDoStop
  cases get_notebook_name env <;> rfl

/-- Every branch of the activity/connection/stop tail has issued the
sessions query. -/
theorem afterCpu_sessionsQueried (env : Env) (args : Args) (c : Bool) :
    (mainAfterCpu env args c).sessionsQueried = true := by
  unfold mainAfterCpu
  cases get_last_activity_time env with
  | none => rfl
  | some la =>
    dsimp only
    split
    · split
      · exact mainDoStop_sessionsQueried env c false
      · split
        · rfl
        · rfl
        · exact mainDoStop_sessionsQueried env c true
    · rfl

/-- C4: `is_within_active_hours` returns true iff the current weekday is
in `active_days` and the current minute-of-day lies in the half-open
interval from start to end (the end minute itself is not active); and
whenever the window end is not after its start, no time is active (no
midnight wraparound). -/
theorem C4_within_active_hours_characterization (args : Args)
    (weekday hour minute : ℕ) :
    (is_within_active_hours args weekday hour minute = true ↔
      weekday ∈ args.active_days ∧
        args.start * 60 + args.startMin ≤ hour * 60 + minute ∧
        hour * 60 + minute < args.endHour * 60 + args.endMin) ∧
    (args.endHour * 60 + args.endMin ≤ args.start * 60 + args.startMin →
      is_within_active_hours args weekday hour minute = false) := by
  constructor
  · exact iwah_iff args weekday hour minute
  · intro h
    cases hb : is_within_active_hours args weekday hour minute with
    | false => rfl
    | true =>
      rcases (iwah_iff args weekday hour minute).mp hb with ⟨-, h1, h2⟩
      omega

/-- C4 witness: Monday 10:00 is inside the default 09:00-17:00 Mon-Fri
window, and the inverted 17:00-09:00 window matches no time. -/
theorem C4_witness :
    is_within_active_hours weekdayArgs 1 10 0 = true ∧
    is_within_active_hours emptyWindowArgs 1 10 0 = false := by
  constructor
  · exact (C4_within_active_hours_characterization weekdayArgs 1 10 0).1.mpr
      (by decide)
  · exact (C4_within_active_hours_characterization emptyWindowArgs 1 10 0).2
      (by decide)

/-- C1: whenever the schedule probe reports active (current weekday in
`active_days` and start ≤ minute-of-day < end) and the run reaches the
schedule check, `main` exits with status 0 immediately: no CPU sample is
taken, no sessions or kernels query is issued, and no stop call is made,
independent of every other signal in the environment. -/
theorem C1_active_window_short_circuits (env : Env) (args : Args)
    (hv : validate_aws_profile env = true)
    (hd : env.weekday ∈ args.active_days)
    (h1 : args.start * 60 + args.startMin ≤ env.hour * 60 + env.minute)
    (h2 : env.hour * 60 + env.minute < args.endHour * 60 + args.endMin) :
    main env args =
      { exitCode := some 0, cpuSampled := false, sessionsQueried := false,
        kernelsQueried := false, stopCalledWith := none,
        stopApiCalled := false } := by
  have hs : is_within_active_hours args env.weekday env.hour env.minute = true :=
    (iwah_iff args env.weekday env.hour env.minute).mpr ⟨hd, h1, h2⟩
  simp [main, hv, hs]

/-- C1 witness: Monday 10:00 inside the default window, with every
external query armed to succeed — none of them runs. -/
theorem C1_witness :
    main { okEnv with weekday := 1 } weekdayArgs =
      { exitCode := some 0, cpuSampled := false, sessionsQueried := false,
        kernelsQueried := false, stopCalledWith := none,
        stopApiCalled := false } :=
  C1_active_window_short_circuits { okEnv with weekday := 1 } weekdayArgs
    (by decide) (by decide) (by decide) (by decide)

/-- C9 (amended): with the 09:00-17:00 Monday-Friday window and a current
time of Saturday 10:00, the schedule gate reports inactive and the
evaluation proceeds to the idle checks — the sessions query is issued
regardless of activity data — instead of producing SKIP_ACTIVE_WINDOW. -/
theorem C9_amended_saturday_proceeds (env : Env)
    (hv : validate_aws_profile env = true)
    (hw : env.weekday = 6) (hh : env.hour = 10) (hm : env.minute = 0) :
    is_within_active_hours weekdayArgs env.weekday env.hour env.minute = false ∧
    (main env weekdayArgs).sessionsQueried = true := by
  have hs : is_within_active_hours weekdayArgs env.weekday env.hour env.minute
      = false := by
    rw [hw, hh, hm]; decide
  refine ⟨hs, ?_⟩
  rw [main_eq_afterCpu env weekdayArgs hv hs rfl]
  exact afterCpu_sessionsQueried env weekdayArgs false

/-- C9 witness: the concrete Saturday 10:00 run of the amended claim. -/
theorem C9_amended_witness :
    (main okEnv weekdayArgs).sessionsQueried = true :=
  (C9_amended_saturday_proceeds okEnv (by decide) rfl rfl rfl).2

/-- C9 counterexample: in a concrete Saturday-10:00 run with the default
09:00-17:00 Mon-Fri window, the schedule gate is inactive, the idle
evaluation runs (sessions are queried), and the run does not exit 0 at
the schedule check — it even reaches the stop API — so the verdict is not
SKIP_ACTIVE_WINDOW. -/
theorem C9_counterexample_saturday_not_skipped :
    is_within_active_hours weekdayArgs 6 10 0 = false ∧
    (main okEnv weekdayArgs).sessionsQueried = true ∧
    (main okEnv weekdayArgs).exitCode ≠ some 0 ∧
    (main okEnv weekdayArgs).stopApiCalled = true := by
  have hmain : main okEnv weekdayArgs =
      { exitCode := none, cpuSampled := false, sessionsQueried := true,
        kernelsQueried := true, stopCalledWith := some none,
        stopApiCalled := true } := by
    norm_num [main, mainAfterCpu, mainDoStop, validate_aws_profile,
      is_within_active_hours, get_last_activity_time, are_connections_active,
      get_notebook_name, stop_notebook_instance, idle_time_of, okEnv,
      weekdayArgs]
    decide
  refine ⟨by decide, ?_, ?_, ?_⟩ <;> simp [hmain]

/-- When the profile validates and name resolution does not abort, the
stop tail invokes the orchestrator and issues the stop API call. -/
theorem mainDoStop_stop (env : Env) (c k : Bool)
    (hv : validate_aws_profile env = true)
    (hn : get_notebook_name env ≠ .fatal) :
    (mainDoStop env c k).stopCalledWith ≠ none ∧
    (mainDoStop env c k).stopApiCalled = true := by
  unfold mainDoStop
  cases hg : get_notebook_name env with
  | fatal => exact absurd hg hn
  | found n =>
    cases hb : env.stopCallOk <;> simp [stop_notebook_instance, hv, hb]
  | noneValue =>
    cases hb : env.stopCallOk <;> simp [stop_notebook_instance, hv, hb]

/-- C5: holding the schedule, CPU and connection gates passing and the
activity record present with timestamp t, the idle decision flips exactly
at the threshold: idleSeconds = now - t ≤ threshold yields the
not-idle-by-activity outcome (no stop orchestration, normal exit, no
kernels query), and idleSeconds > threshold proceeds to the stop tail,
which (when name resolution does not abort) issues the stop call. -/
theorem C5_idle_threshold_boundary (env : Env) (args : Args) (t : ℚ)
    (hv : validate_aws_profile env = true)
    (hs : is_within_active_hours args env.weekday env.hour env.minute = false)
    (hc : args.cpu_threshold = none)
    (ha : get_last_activity_time env = some (some t))
    (hi : args.ignore_connections = true) :
    (env.nowUtc - t ≤ (args.time : ℚ) →
      (main env args).stopCalledWith = none ∧
      (main env args).stopApiCalled = false ∧
      (main env args).exitCode = none ∧
      (main env args).kernelsQueried = false) ∧
    ((args.time : ℚ) < env.nowUtc - t →
      main env args = mainDoStop env false false ∧
      (get_notebook_name env ≠ .fatal →
        (main env args).stopCalledWith ≠ none ∧
        (main env args).stopApiCalled = true)) := by
  have hm : main env args = mainAfterCpu env args false :=
    main_eq_afterCpu env args hv hs hc
  have h1 : env.nowUtc - t ≤ (args.time : ℚ) →
      main env args =
        { exitCode := none, cpuSampled := false, sessionsQueried := true,
          kernelsQueried := false, stopCalledWith := none,
          stopApiCalled := false } := by
    intro hle
    rw [hm]
    unfold mainAfterCpu
    rw [ha]
    simp only [idle_time_of]
    rw [if_neg (not_lt.mpr hle)]
  have h2 : (args.time : ℚ) < env.nowUtc - t →
      main env args = mainDoStop env false false := by
    intro hgt
    rw [hm]
    unfold mainAfterCpu
    rw [ha]
    simp only [idle_time_of]
    rw [if_pos hgt, if_pos hi]
  refine ⟨fun hle => ?_, fun hgt => ?_⟩
  · rw [h1 hle]
    exact ⟨rfl, rfl, rfl, rfl⟩
  · refine ⟨h2 hgt, fun hn => ?_⟩
    rw [h2 hgt]
    exact mainDoStop_stop env false false hv hn

/-- C5 witness: with the default threshold of 5400 s, a session last
active 1000 s ago is not stopped, and one last active 6000 s ago is. -/
theorem C5_witness :
    (main freshSessionEnv stopArgs).stopApiCalled = false ∧
    (main staleSessionEnv stopArgs).stopApiCalled = true := by
  constructor
  · exact ((C5_idle_threshold_boundary freshSessionEnv stopArgs 9000
      (by decide) (by decide) rfl rfl rfl).1
      (by norm_num [freshSessionEnv, okEnv, stopArgs, weekdayArgs])).2.1
  · exact (((C5_idle_threshold_boundary staleSessionEnv stopArgs 4000
      (by decide) (by decide) rfl rfl rfl).2
      (by norm_num [staleSessionEnv, okEnv, stopArgs, weekdayArgs])).2
      (by decide)).2

/-- A session list in which no session carries a kernel timestamp leaves
the activity fold at `none`. -/
theorem foldl_latest_activity_none (ss : List Session)
    (h : ∀ s ∈ ss, ∀ k, s.kernel = some k → k.last_activity = none) :
    ss.foldl latest_activity_step none = none := by
  induction ss with
  | nil => rfl
  | cons a l ih =>
    have ha : latest_activity_step none a = none := by
      cases hk : a.kernel with
      | none => simp [latest_activity_step, hk]
      | some k =>
        simp [latest_activity_step, hk, h a (List.mem_cons_self a l) k hk]
    rw [List.foldl_cons, ha]
    exact ih fun s hs k hk => h s (List.mem_cons_of_mem a hs) k hk

/-- C6: a successful sessions query whose sessions carry no kernel
activity timestamp produces an absent activity record, and `main` then
force-idles with idle_time = threshold + 1; whereas a failing sessions
query terminates the run with exit status 1 and no stop call — a query
failure is never turned into an idle or not-idle verdict. -/
theorem C6_absent_activity_vs_query_failure (env : Env) (args : Args)
    (ss : List Session)
    (hv : validate_aws_profile env = true)
    (hs : is_within_active_hours args env.weekday env.hour env.minute = false)
    (hc : args.cpu_threshold = none) :
    (env.sessions = some ss →
      (∀ s ∈ ss, ∀ k, s.kernel = some k → k.last_activity = none) →
      get_last_activity_time env = some none) ∧
    idle_time_of args.time none env.nowUtc = (args.time : ℚ) + 1 ∧
    (env.sessions = none →
      (main env args).exitCode = some 1 ∧
      (main env args).sessionsQueried = true ∧
      (main env args).stopCalledWith = none ∧
      (main env args).stopApiCalled = false) := by
  refine ⟨fun hse habs => ?_, rfl, fun hse => ?_⟩
  · simp [get_last_activity_time, hse, foldl_latest_activity_none ss habs]
  · have hm : main env args = mainAfterCpu env args false :=
      main_eq_afterCpu env args hv hs hc
    rw [hm]
    unfold mainAfterCpu
    have hla : get_last_activity_time env = none := by
      simp [get_last_activity_time, hse]
    rw [hla]
    exact ⟨rfl, rfl, rfl, rfl⟩

/-- C6 witness: the empty-session Saturday run has an absent activity
record, and the same run with a failing sessions query exits 1. -/
theorem C6_witness :
    get_last_activity_time okEnv = some none ∧
    (main { okEnv with sessions := none } weekdayArgs).exitCode = some 1 := by
  constructor
  · exact (C6_absent_activity_vs_query_failure okEnv weekdayArgs []
      (by decide) (by decide) rfl).1 rfl (by simp)
  · exact ((C6_absent_activity_vs_query_failure { okEnv with sessions := none }
      weekdayArgs [] (by decide) (by decide) rfl).2.2 rfl).1

/-- The name-resolution/stop tail reports exactly the kernels-query flag
it is given. -/
theorem mainDoStop_kernelsQueried (env : Env) (c k : Bool) :
    (mainDoStop env c k).kernelsQueried = k := by
  unfold mainDoStop
  cases get_notebook_name env <;> rfl

/-- With connection checking disabled, the activity tail never issues the
kernels query. -/
theorem afterCpu_no_kernels (env : Env) (args : Args) (c : Bool)
    (h : args.ignore_connections = true) :
    (mainAfterCpu env args c).kernelsQueried = false := by
  unfold mainAfterCpu
  cases get_last_activity_time env with
  | none => rfl
  | some la =>
    dsimp only
    by_cases hgt : idle_time_of args.time la env.nowUtc > (args.time : ℚ)
    · rw [if_pos hgt, if_pos h]
      exact mainDoStop_kernelsQueried env c false
    · rw [if_neg hgt]

/-- With connection checking disabled, `main` never issues the kernels
query. -/
theorem main_no_kernels (env : Env) (args : Args)
    (h : args.ignore_connections = true) :
    (main env args).kernelsQueried = false := by
  unfold main
  by_cases hval : validate_aws_profile env = false
  · rw [if_pos hval]
  · rw [if_neg hval]
    by_cases hw :
        is_within_active_hours args env.weekday env.hour env.minute = true
    · rw [if_pos hw]
    · rw [if_neg hw]
      cases hct : args.cpu_threshold with
      | none => exact afterCpu_no_kernels env args false h
      | some thr =>
        dsimp only
        by_cases hcpu :
            is_cpu_idle thr args.cpu_check_duration env.cpuSampleAt = true
        · rw [if_pos hcpu]
          exact afterCpu_no_kernels env args true h
        · rw [if_neg hcpu]

/-- `validate_aws_profile` reads only the credential fields. -/
theorem validate_congr (e₁ e₂ : Env)
    (h1 : e₁.credentialsFileExists = e₂.credentialsFileExists)
    (h2 : e₁.profileFound = e₂.profileFound)
    (h3 : e₁.profileCredentials = e₂.profileCredentials)
    (h4 : e₁.stsCallOk = e₂.stsCallOk) :
    validate_aws_profile e₁ = validate_aws_profile e₂ := by
  unfold validate_aws_profile
  rw [h1, h2, h3, h4]

/-- `get_last_activity_time` reads only the sessions data. -/
theorem get_last_activity_congr (e₁ e₂ : Env)
    (h : e₁.sessions = e₂.sessions) :
    get_last_activity_time e₁ = get_last_activity_time e₂ := by
  unfold get_last_activity_time
  rw [h]

/-- `get_notebook_name` reads only the identity-resolution fields. -/
theorem get_notebook_name_congr (e₁ e₂ : Env)
    (h1 : e₁.metadataFileExists = e₂.metadataFileExists)
    (h2 : e₁.metadataReadRaises = e₂.metadataReadRaises)
    (h3 : e₁.metadataResourceName = e₂.metadataResourceName)
    (h4 : e₁.ec2TagResponse = e₂.ec2TagResponse)
    (h5 : e₁.hostname = e₂.hostname) :
    get_notebook_name e₁ = get_notebook_name e₂ := by
  unfold get_notebook_name
  rw [h1, h2, h3, h4, h5]

/-- `stop_notebook_instance` reads only credentials and the stop API. -/
theorem stop_congr (e₁ e₂ : Env) (n : Option String)
    (h1 : e₁.credentialsFileExists = e₂.credentialsFileExists)
    (h2 : e₁.profileFound = e₂.profileFound)
    (h3 : e₁.profileCredentials = e₂.profileCredentials)
    (h4 : e₁.stsCallOk = e₂.stsCallOk)
    (h5 : e₁.stopCallOk = e₂.stopCallOk) :
    stop_notebook_instance e₁ n = stop_notebook_instance e₂ n := by
  unfold stop_notebook_instance
  rw [validate_congr e₁ e₂ h1 h2 h3 h4, h5]

/-- The stop tail reads only the identity-resolution, credential and
stop-API fields. -/
theorem mainDoStop_congr (e₁ e₂ : Env) (c k : Bool)
    (h1 : e₁.metadataFileExists = e₂.metadataFileExists)
    (h2 : e₁.metadataReadRaises = e₂.metadataReadRaises)
    (h3 : e₁.metadataResourceName = e₂.metadataResourceName)
    (h4 : e₁.ec2TagResponse = e₂.ec2TagResponse)
    (h5 : e₁.hostname = e₂.hostname)
    (h6 : e₁.credentialsFileExists = e₂.credentialsFileExists)
    (h7 : e₁.profileFound = e₂.profileFound)
    (h8 : e₁.profileCredentials = e₂.profileCredentials)
    (h9 : e₁.stsCallOk = e₂.stsCallOk)
    (h10 : e₁.stopCallOk = e₂.stopCallOk) :
    mainDoStop e₁ c k = mainDoStop e₂ c k := by
  unfold mainDoStop
  rw [get_notebook_name_congr e₁ e₂ h1 h2 h3 h4 h5]
  cases get_notebook_name e₂ with
  | fatal => rfl
  | found n =>
    dsimp only
    rw [stop_congr e₁ e₂ (some n) h6 h7 h8 h9 h10]
  | noneValue =>
    dsimp only
    rw [stop_congr e₁ e₂ none h6 h7 h8 h9 h10]

/-- With connection checking disabled, the activity tail reads neither
the kernel listing nor any other field beyond sessions, clock, identity,
credentials and stop API. -/
theorem mainAfterCpu_congr (e₁ e₂ : Env) (args : Args) (c : Bool)
    (hig : args.ignore_connections = true)
    (hse : e₁.sessions = e₂.sessions)
    (hnow : e₁.nowUtc = e₂.nowUtc)
    (h1 : e₁.metadataFileExists = e₂.metadataFileExists)
    (h2 : e₁.metadataReadRaises = e₂.metadataReadRaises)
    (h3 : e₁.metadataResourceName = e₂.metadataResourceName)
    (h4 : e₁.ec2TagResponse = e₂.ec2TagResponse)
    (h5 : e₁.hostname = e₂.hostname)
    (h6 : e₁.credentialsFileExists = e₂.credentialsFileExists)
    (h7 : e₁.profileFound = e₂.profileFound)
    (h8 : e₁.profileCredentials = e₂.profileCredentials)
    (h9 : e₁.stsCallOk = e₂.stsCallOk)
    (h10 : e₁.stopCallOk = e₂.stopCallOk) :
    mainAfterCpu e₁ args c = mainAfterCpu e₂ args c := by
  unfold mainAfterCpu
  rw [get_last_activity_congr e₁ e₂ hse]
  cases get_last_activity_time e₂ with
  | none => rfl
  | some la =>
    dsimp only
    rw [hnow]
    by_cases hgt : idle_time_of args.time la e₂.nowUtc > (args.time : ℚ)
    · rw [if_pos hgt, if_pos hgt, if_pos hig, if_pos hig]
      exact mainDoStop_congr e₁ e₂ c false h1 h2 h3 h4 h5 h6 h7 h8 h9 h10
    · rw [if_neg hgt, if_neg hgt]

/-- With connection checking disabled, `main` reads every environment
field except the kernel listing; two runs that agree on those fields
coincide. -/
theorem main_congr (e₁ e₂ : Env) (args : Args)
    (hig : args.ignore_connections = true)
    (hwd : e₁.weekday = e₂.weekday)
    (hhr : e₁.hour = e₂.hour)
    (hmin : e₁.minute = e₂.minute)
    (hcpu : e₁.cpuSampleAt = e₂.cpuSampleAt)
    (hse : e₁.sessions = e₂.sessions)
    (hnow : e₁.nowUtc = e₂.nowUtc)
    (h1 : e₁.metadataFileExists = e₂.metadataFileExists)
    (h2 : e₁.metadataReadRaises = e₂.metadataReadRaises)
    (h3 : e₁.metadataResourceName = e₂.metadataResourceName)
    (h4 : e₁.ec2TagResponse = e₂.ec2TagResponse)
    (h5 : e₁.hostname = e₂.hostname)
    (h6 : e₁.credentialsFileExists = e₂.credentialsFileExists)
    (h7 : e₁.profileFound = e₂.profileFound)
    (h8 : e₁.profileCredentials = e₂.profileCredentials)
    (h9 : e₁.stsCallOk = e₂.stsCallOk)
    (h10 : e₁.stopCallOk = e₂.stopCallOk) :
    main e₁ args = main e₂ args := by
  unfold main
  rw [validate_congr e₁ e₂ h6 h7 h8 h9]
  by_cases hval : validate_aws_profile e₂ = false
  · rw [if_pos hval, if_pos hval]
  · rw [if_neg hval, if_neg hval]
    rw [hwd, hhr, hmin]
    by_cases hw :
        is_within_active_hours args e₂.weekday e₂.hour e₂.minute = true
    · rw [if_pos hw, if_pos hw]
    · rw [if_neg hw, if_neg hw]
      cases hct : args.cpu_threshold with
      | none =>
        exact mainAfterCpu_congr e₁ e₂ args false hig hse hnow
          h1 h2 h3 h4 h5 h6 h7 h8 h9 h10
      | some thr =>
        dsimp only
        rw [hcpu]
        by_cases hcp :
            is_cpu_idle thr args.cpu_check_duration e₂.cpuSampleAt = true
        · rw [if_pos hcp, if_pos hcp]
          exact mainAfterCpu_congr e₁ e₂ args true hig hse hnow
            h1 h2 h3 h4 h5 h6 h7 h8 h9 h10
        · rw [if_neg hcp, if_neg hcp]

/-- With connection checking disabled, replacing the kernel listing
leaves the whole run unchanged. -/
theorem main_kernels_irrelevant (env : Env) (args : Args)
    (k : Option (List Kernel)) (h : args.ignore_connections = true) :
    main { env with kernels := k } args = main env args :=
  main_congr { env with kernels := k } env args h rfl rfl rfl rfl rfl rfl
    rfl rfl rfl rfl rfl rfl rfl rfl rfl rfl

/-- C7: with ignore_connections set, the connection data has no influence
on the outcome — the kernels endpoint is not queried and two runs
differing only in the kernel listing coincide; with it unset, any kernel
reporting positive connections forces the not-idle-by-connections outcome
(no stop, normal exit) whenever the schedule, CPU and activity gates
pass. -/
theorem C7_connection_gate (env : Env) (args : Args)
    (k₁ k₂ : Option (List Kernel)) (ks : List Kernel) (t : ℚ) :
    (args.ignore_connections = true →
      main { env with kernels := k₁ } args =
        main { env with kernels := k₂ } args ∧
      (main env args).kernelsQueried = false) ∧
    (args.ignore_connections = false →
      validate_aws_profile env = true →
      is_within_active_hours args env.weekday env.hour env.minute = false →
      args.cpu_threshold = none →
      get_last_activity_time env = some (some t) →
      (args.time : ℚ) < env.nowUtc - t →
      env.kernels = some ks →
      (∃ kk ∈ ks, ∃ c : ℤ, kk.connections = some c ∧ 0 < c) →
      (main env args).exitCode = none ∧
      (main env args).kernelsQueried = true ∧
      (main env args).stopCalledWith = none ∧
      (main env args).stopApiCalled = false) := by
  constructor
  · intro h
    exact ⟨(main_kernels_irrelevant env args k₁ h).trans
        (main_kernels_irrelevant env args k₂ h).symm,
      main_no_kernels env args h⟩
  · intro h hv hs hc ha hgt hk hex
    have hany : ks.any (fun kernel => kernel.connections.getD 0 > 0) = true := by
      obtain ⟨kk, hmem, c, hc2, hpos⟩ := hex
      refine List.any_eq_true.mpr ⟨kk, hmem, ?_⟩
      simp [hc2, hpos]
    have hca : are_connections_active env = some true := by
      simp [are_connections_active, hk, hany]
    have hm : main env args = mainAfterCpu env args false :=
      main_eq_afterCpu env args hv hs hc
    rw [hm]
    unfold mainAfterCpu
    rw [ha]
    simp only [idle_time_of]
    rw [if_pos hgt, if_neg (by simp [h]), hca]
    exact ⟨rfl, rfl, rfl, rfl⟩

/-- C7 witness: with connection checking disabled, a stale-session run
with 3 reported connections coincides with one whose kernels query would
fail; with it enabled, 2 live connections veto the stop of an otherwise
idle notebook. -/
theorem C7_witness :
    main { staleSessionEnv with kernels := some [{ connections := some 3 }] }
        stopArgs =
      main { staleSessionEnv with kernels := none } stopArgs ∧
    (main connectedEnv weekdayArgs).stopApiCalled = false ∧
    (main connectedEnv weekdayArgs).exitCode = none := by
  have h2 := (C7_connection_gate connectedEnv weekdayArgs none none
      [{ connections := some 2 }] 4000).2 rfl (by decide) (by decide) rfl rfl
    (by norm_num [connectedEnv, staleSessionEnv, okEnv, weekdayArgs]) rfl
    ⟨{ connections := some 2 }, by decide, 2, rfl, by decide⟩
  exact ⟨((C7_connection_gate staleSessionEnv stopArgs
      (some [{ connections := some 3 }]) none [] 0).1 rfl).1,
    h2.2.2.2, h2.1⟩

/-- C3 counterexample: for a check duration of 6 s the source collects
max(1, 6 // 5) = 1 sample, not ceil(6/5) = 2; with a sampler reading 0%
then 100% and threshold 50%, the source judges the CPU idle while the
ceil-sampling policy of the claim judges it busy. -/
theorem C3_counterexample_floor_not_ceil :
    (cpu_usage_samples (fun n => if n = 0 then 0 else 100) 6).length = 1 ∧
    (6 + interval - 1) / interval = 2 ∧
    is_cpu_idle 50 6 (fun n => if n = 0 then 0 else 100) = true ∧
    is_cpu_idle_ceilSpec 50 6 (fun n => if n = 0 then 0 else 100) = false := by
  norm_num [is_cpu_idle, is_cpu_idle_ceilSpec, cpu_usage_samples, total_samples,
    interval, average_cpu, List.range_succ]

/-- C3 (amended): `is_cpu_idle` collects exactly max(1, ⌊duration / 5⌋)
samples (floor division, minimum 1); the CPU gate reports not-idle
exactly when the arithmetic mean of the collected samples is ≥ threshold,
in which case `main` exits 0 with no sessions/kernels query and no stop
call; and samples [10, 20, 30] have mean 20. -/
theorem C3_amended_cpu_gate (threshold : ℚ) (d : ℕ) (f : ℕ → ℚ)
    (env : Env) (args : Args) :
    (cpu_usage_samples f d).length = max 1 (d / interval) ∧
    (is_cpu_idle threshold d f = false ↔
      threshold ≤ average_cpu (cpu_usage_samples f d)) ∧
    average_cpu [(10 : ℚ), 20, 30] = 20 ∧
    (validate_aws_profile env = true →
      is_within_active_hours args env.weekday env.hour env.minute = false →
      args.cpu_threshold = some threshold →
      is_cpu_idle threshold args.cpu_check_duration env.cpuSampleAt = false →
      main env args =
        { exitCode := some 0, cpuSampled := true, sessionsQueried := false,
          kernelsQueried := false, stopCalledWith := none,
          stopApiCalled := false }) := by
  refine ⟨?_, ?_, ?_, ?_⟩
  · simp [cpu_usage_samples, total_samples]
  · simp [is_cpu_idle, not_lt]
  · norm_num [average_cpu]
  · intro hv hs hc hcpu
    simp [main, hv, hs, hc, hcpu]

/-- C3 witness: the constantly-busy Saturday run with a 50% threshold:
the 60 s window yields 12 samples of 100%, the gate reports not-idle and
`main` exits 0 without sampling sessions or stopping anything. -/
theorem C3_witness :
    main busyCpuEnv cpuArgs =
      { exitCode := some 0, cpuSampled := true, sessionsQueried := false,
        kernelsQueried := false, stopCalledWith := none,
        stopApiCalled := false } :=
  (C3_amended_cpu_gate 50 6 (fun _ => 100) busyCpuEnv cpuArgs).2.2.2
    (by decide) (by decide) rfl
    (by norm_num [is_cpu_idle, cpu_usage_samples, total_samples, interval,
      average_cpu, List.range_succ, busyCpuEnv, okEnv, cpuArgs, weekdayArgs])

/-- C8: `validate_aws_profile` succeeds exactly when the credentials file
and the profile exist, the frozen access and secret keys are non-empty
and the live get-caller-identity call succeeds; when validation fails,
`stop_notebook_instance` exits 1 without issuing the stop API call; and
the mutating stop call is reachable only after validation succeeds. -/
theorem C8_stop_requires_validation (env : Env) (name : Option String) :
    (validate_aws_profile env = true ↔
      env.credentialsFileExists = true ∧ env.profileFound = true ∧
        ∃ c, env.profileCredentials = some c ∧
          c.access_key ≠ "" ∧ c.secret_key ≠ "" ∧ env.stsCallOk = true) ∧
    (validate_aws_profile env = false →
      stop_notebook_instance env name =
        { stopApiCalled := false, exitCode := some 1 }) ∧
    ((stop_notebook_instance env name).stopApiCalled = true →
      validate_aws_profile env = true) := by
  refine ⟨?_, fun hv => ?_, fun hapi => ?_⟩
  · unfold validate_aws_profile
    cases hcf : env.credentialsFileExists with
    | false => simp
    | true =>
      cases hpf : env.profileFound with
      | false => simp
      | true =>
        cases hpc : env.profileCredentials with
        | none => simp
        | some c =>
          by_cases ha : c.access_key = ""
          · simp [ha]
          · by_cases hb : c.secret_key = ""
            · simp [ha, hb]
            · simp [ha, hb]
  · unfold stop_notebook_instance
    rw [if_pos hv]
  · cases hb : validate_aws_profile env with
    | true => rfl
    | false =>
      unfold stop_notebook_instance at hapi
      rw [if_pos hb] at hapi
      simp at hapi

/-- C8 witness: with the identity call failing, the stop orchestrator
exits 1 without touching the stop API. -/
theorem C8_witness :
    stop_notebook_instance { okEnv with stsCallOk := false } (some "nb") =
      { stopApiCalled := false, exitCode := some 1 } :=
  (C8_stop_requires_validation { okEnv with stsCallOk := false }
    (some "nb")).2.1 (by decide)

/-- A kernel counts as actively connected exactly when its optional
connections field holds a strictly positive value. -/
theorem kernel_active_iff (kk : Kernel) :
    kk.connections.getD 0 > 0 ↔ ∃ c : ℤ, kk.connections = some c ∧ 0 < c := by
  cases hc : kk.connections <;> simp [hc]

/-- C10: `are_connections_active` reports active exactly when some kernel
object in the listing carries a connections value strictly greater than
0; a kernel without the field counts as 0 connections and never makes the
check report active. -/
theorem C10_connections_active_iff (env : Env) (ks : List Kernel)
    (h : env.kernels = some ks) :
    (are_connections_active env = some true ↔
      ∃ kk ∈ ks, ∃ c : ℤ, kk.connections = some c ∧ 0 < c) ∧
    ((∀ kk ∈ ks, kk.connections = none) →
      are_connections_active env = some false) := by
  constructor
  · simp [are_connections_active, h, List.any_eq_true, kernel_active_iff]
  · intro habs
    have hany : ks.any (fun kernel => kernel.connections.getD 0 > 0) = false := by
      rw [List.any_eq_false]
      intro kk hkk
      simp [habs kk hkk]
    simp [are_connections_active, h, hany]

/-- C10 witness: one kernel with 2 connections reports active; one with
no connections field reports inactive. -/
theorem C10_witness :
    are_connections_active
        { okEnv with kernels := some [{ connections := some 2 }] } =
      some true ∧
    are_connections_active
        { okEnv with kernels := some [{ connections := none }] } =
      some false := by
  constructor
  · exact (C10_connections_active_iff _ [{ connections := some 2 }] rfl).1.mpr
      ⟨{ connections := some 2 }, by decide, 2, rfl, by decide⟩
  · exact (C10_connections_active_iff _ [{ connections := none }] rfl).2
      (by decide)

/-- C2: evaluation of the code at the failing input: with an explicit
name configured, the metadata file absent, the EC2 tag query failing and
the hostname available, `get_notebook_name` returns Python None — neither
the tag query nor the hostname fallback runs, both being inside the
unreached exception handler — and `main` hands that None to the stop
orchestrator instead of the configured name. -/
theorem C2_resolution_ignores_name_and_fallbacks :
    okEnv.metadataFileExists = false ∧
    okEnv.ec2TagResponse = none ∧
    okEnv.hostname = some "host-1" ∧
    get_notebook_name okEnv = .noneValue ∧
    namedArgs.name = some "my-notebook" ∧
    (main okEnv namedArgs).stopCalledWith = some none := by
  refine ⟨rfl, rfl, rfl, rfl, rfl, ?_⟩
  have hmain : main okEnv namedArgs =
      { exitCode := none, cpuSampled := false, sessionsQueried := true,
        kernelsQueried := false, stopCalledWith := some none,
        stopApiCalled := true } := by
    norm_num [main, mainAfterCpu, mainDoStop, validate_aws_profile,
      is_within_active_hours, get_last_activity_time, are_connections_active,
      get_notebook_name, stop_notebook_instance, idle_time_of, okEnv,
      namedArgs, stopArgs, weekdayArgs]
    decide
  simp [hmain]

end Autostop
